import Mathlib

/-!
Shallow embedding of the message-display module in
`src/Eric/hello world/app.js` of the `lenovo4good` repository.

The host document is modelled as a map from element identifier to the
element's current text content (`Env.dom`); the console (diagnostic
channel) is a list of `Diag` lines (`Env.diags`), appended in order.
A sink exists at identifier `t` exactly when `dom t = some c`.
JavaScript functions that return `undefined` are embedded as functions
returning `Env × Unit`: the new environment plus the (uninformative)
return value.
-/

/-- A diagnostic line on the console: `console.error` or `console.log`. -/
inductive Diag where
  | error (s : String)
  | log (s : String)
deriving DecidableEq, Repr

/-- The observable state: the host document's element registry (identifier
to text content; `none` means no element with that identifier exists) and
the ordered list of console diagnostics emitted so far. -/
structure Env where
  dom : String → Option String
  diags : List Diag

/-- The text of the error emitted by `displayMessage` when the element is
absent: `Element with ID '<elementId>' not found` (backticks in the source
template literal). -/
def notFoundMsg (elementId : String) : String :=
  "Element with ID \x27" ++ elementId ++ "\x27 not found"

/-- Embedding of `displayMessage(message, elementId)`:
looks up `elementId`; if absent, logs `notFoundMsg` via `console.error`
and returns; otherwise sets the element's `textContent` to `message`.
Returns the updated environment and the JS return value (`undefined`,
embedded as `Unit`, the same on both paths). -/
def displayMessage (message elementId : String) (env : Env) : Env × Unit :=
  match env.dom elementId with
  | none =>
      ({ env with diags := env.diags ++ [Diag.error (notFoundMsg elementId)] }, ())
  | some _ =>
      ({ env with dom := fun id => if id = elementId then some message else env.dom id }, ())

/-- The `console.log` line emitted unconditionally at the end of `init`. -/
def initLogMsg : String := "Hello World application initialized successfully"

/-- Embedding of `init()`: calls `displayMessage('Hello World', 'message')`
and then unconditionally logs `initLogMsg`. -/
def init (env : Env) : Env × Unit :=
  let env1 := (displayMessage "Hello World" "message" env).1
  ({ env1 with diags := env1.diags ++ [Diag.log initLogMsg] }, ())

/-- The listener table set up by the module's one wiring statement,
`document.addEventListener('DOMContentLoaded', init)`: the single handler
`init`, registered for the event named `DOMContentLoaded`. -/
def handlers : List (String × (Env → Env)) :=
  [("DOMContentLoaded", fun env => (init env).1)]

/-- Host event dispatch: firing an event runs every registered handler
whose event name matches. -/
def fire (env : Env) (ev : String) : Env :=
  handlers.foldl (fun acc h => if h.1 = ev then h.2 acc else acc) env

/-- Running a whole trace of host events, in order. -/
def runTrace (env : Env) (trace : List String) : Env :=
  trace.foldl fire env

/-- The component's lifecycle phases: `idle` before the load signal,
`done` after it. -/
inductive Phase where
  | idle
  | done
deriving DecidableEq, Repr

/-- The lifecycle phase after a trace of host events: `done` exactly when
the content-loaded signal has fired. -/
def phase (trace : List String) : Phase :=
  if "DOMContentLoaded" ∈ trace then Phase.done else Phase.idle

/-- A sequence of writes to the same target: each message in `ms` is
displayed at `t` in order. -/
def writeSeq (t : String) (ms : List String) (env : Env) : Env :=
  ms.foldl (fun e m => (displayMessage m t e).1) env

/-! ### Concrete environments used as witnesses -/

/-- A document with a single, empty sink `message`, empty console. -/
def envA : Env :=
  ⟨fun id => if id = "message" then some "" else none, []⟩

/-- A document with no sinks at all, empty console. -/
def envEmpty : Env :=
  ⟨fun _ => none, []⟩

/-- A document whose sink `message` already holds `Old Text`. -/
def envC : Env :=
  ⟨fun id => if id = "message" then some "Old Text" else none, []⟩

/-- A document with two sinks, `message` (empty) and `other` (text `x`). -/
def envTwo : Env :=
  ⟨fun id => if id = "message" then some "" else if id = "other" then some "x" else none, []⟩

/-! ### Helper lemmas shared by the claim theorems -/

/-- On the failure path (`dom elementId = none`) `displayMessage` only
appends one error diagnostic. -/
theorem displayMessage_none {env : Env} {elementId : String} (m : String)
    (h : env.dom elementId = none) :
    (displayMessage m elementId env).1
      = { env with diags := env.diags ++ [Diag.error (notFoundMsg elementId)] } := by
  unfold displayMessage
  rw [h]

/-- On the success path (`dom elementId = some c`) `displayMessage`
updates only the `dom` map at `elementId`. -/
theorem displayMessage_some {env : Env} {elementId c : String} (m : String)
    (h : env.dom elementId = some c) :
    (displayMessage m elementId env).1
      = { env with dom := fun id => if id = elementId then some m else env.dom id } := by
  unfold displayMessage
  rw [h]

/-- Success-path write: the target sink's text becomes exactly the message. -/
theorem sink_write {env : Env} {t c : String} (m : String)
    (h : env.dom t = some c) :
    ((displayMessage m t env).1).dom t = some m := by
  rw [displayMessage_some m h]
  simp

/-- `init` unfolded: the environment after `displayMessage`, with the
unconditional success log appended. -/
theorem init_apply (env : Env) :
    (init env).1
      = { (displayMessage "Hello World" "message" env).1 with
          diags := ((displayMessage "Hello World" "message" env).1).diags
                     ++ [Diag.log initLogMsg] } := rfl

/-- Firing one event runs `init` iff the event is the content-loaded
signal. -/
theorem fire_eq (env : Env) (ev : String) :
    fire env ev = if "DOMContentLoaded" = ev then (init env).1 else env := by
  simp [fire, handlers]

/-- Traces split under dispatch. -/
theorem runTrace_append (env : Env) (l1 l2 : List String) :
    runTrace env (l1 ++ l2) = runTrace (runTrace env l1) l2 := by
  simp [runTrace, List.foldl_append]

/-- A trace without the content-loaded signal leaves the environment
untouched: no handler is registered for any other event. -/
theorem runTrace_no_signal :
    ∀ (tr : List String) (env : Env),
      "DOMContentLoaded" ∉ tr → runTrace env tr = env := by
  intro tr
  induction tr with
  | nil => intro env _; rfl
  | cons ev rest ih =>
    intro env h
    rw [List.mem_cons, not_or] at h
    obtain ⟨hne, hrest⟩ := h
    show runTrace (fire env ev) rest = env
    rw [fire_eq, if_neg hne]
    exact ih env hrest

/-- A nonempty sequence of writes to an existing sink leaves the sink
holding the last message written. -/
theorem writeSeq_last (t : String) :
    ∀ (ms : List String) (env : Env) (c : String),
      env.dom t = some c → ms ≠ [] →
      (writeSeq t ms env).dom t = ms.getLast? := by
  intro ms
  induction ms with
  | nil => intro env c _ hne; exact absurd rfl hne
  | cons m rest ih =>
    intro env c h _
    cases rest with
    | nil =>
      show ((displayMessage m t env).1).dom t = [m].getLast?
      rw [sink_write m h]
      rfl
    | cons m2 rest2 =>
      have h2 : ((displayMessage m t env).1).dom t = some m := sink_write m h
      have hrec := ih ((displayMessage m t env).1) m h2 (by simp)
      rw [List.getLast?_cons_cons]
      exact hrec

/-! ### The claims -/

/-- C1: for every message `m` and target `t` at which a sink exists,
`displayMessage m t` sets that sink's text to exactly `m`, discarding its
prior content `c`. -/
theorem c1_displayMessage_sets_text (m t c : String) (env : Env)
    (h : env.dom t = some c) :
    ((displayMessage m t env).1).dom t = some m :=
  sink_write m h

theorem c1_witness :
    envA.dom "message" = some "" ∧
    ((displayMessage "Hi" "message" envA).1).dom "message" = some "Hi" :=
  ⟨by decide, c1_displayMessage_sets_text "Hi" "message" "" envA (by decide)⟩

/-- C2: for a target `t'` at which no sink exists, `displayMessage m t'`
leaves every sink unchanged, appends exactly one diagnostic — an error —
and that diagnostic's text contains `t'`. -/
theorem c2_missing_sink (m t' : String) (env : Env)
    (h : env.dom t' = none) :
    (∀ id, ((displayMessage m t' env).1).dom id = env.dom id) ∧
    ((displayMessage m t' env).1).diags = env.diags ++ [Diag.error (notFoundMsg t')] ∧
    (∃ pre post, notFoundMsg t' = pre ++ t' ++ post) := by
  rw [displayMessage_none m h]
  exact ⟨fun id => rfl, rfl, "Element with ID \x27", "\x27 not found", rfl⟩

theorem c2_witness :
    envA.dom "missing" = none ∧
    ((displayMessage "Hi" "missing" envA).1).dom "message" = envA.dom "message" ∧
    ((displayMessage "Hi" "missing" envA).1).diags = [Diag.error (notFoundMsg "missing")] := by
  have h := c2_missing_sink "Hi" "missing" envA (by decide)
  refine ⟨by decide, h.1 "message", ?_⟩
  rw [h.2.1]
  rfl

/-- C3: in every starting state, `init` produces exactly the sink
mutations of `displayMessage "Hello World" "message"` and exactly its
diagnostics followed by the one unconditional startup log line. -/
theorem c3_init_refines_displayMessage (env : Env) :
    (∀ id, ((init env).1).dom id
             = ((displayMessage "Hello World" "message" env).1).dom id) ∧
    ((init env).1).diags
      = ((displayMessage "Hello World" "message" env).1).diags ++ [Diag.log initLogMsg] :=
  ⟨fun _ => rfl, rfl⟩

/-- C4: when no sink `message` exists, `init` still logs the
"initialized successfully" line, the diagnostics contain an error whose
text mentions `message`, and no sink anywhere is mutated. -/
theorem c4_init_unguarded (env : Env)
    (h : env.dom "message" = none) :
    Diag.log initLogMsg ∈ ((init env).1).diags ∧
    (∃ s, Diag.error s ∈ ((init env).1).diags ∧
          ∃ pre post, s = pre ++ "message" ++ post) ∧
    (∀ id, ((init env).1).dom id = env.dom id) := by
  rw [init_apply, displayMessage_none "Hello World" h]
  refine ⟨by simp, ⟨notFoundMsg "message", by simp, "Element with ID \x27", "\x27 not found", rfl⟩,
    fun id => rfl⟩

theorem c4_witness :
    envEmpty.dom "message" = none ∧
    Diag.log initLogMsg ∈ ((init envEmpty).1).diags ∧
    (∃ s, Diag.error s ∈ ((init envEmpty).1).diags ∧
          ∃ pre post, s = pre ++ "message" ++ post) ∧
    ((init envEmpty).1).dom "other" = envEmpty.dom "other" := by
  have h := c4_init_unguarded envEmpty (by decide)
  exact ⟨by decide, h.1, h.2.1, h.2.2 "other"⟩

/-- C5: `displayMessage` has no return value: the value it returns is the
unit (JS `undefined`) in every state, so a caller cannot distinguish the
success path from the target-not-found path from the call itself. -/
theorem c5_no_return_value (m t : String) (env env' : Env) :
    (displayMessage m t env).2 = () ∧
    (displayMessage m t env).2 = (displayMessage m t env').2 :=
  ⟨Subsingleton.elim _ _, Subsingleton.elim _ _⟩

/-- C6: writes to an existing sink are last-write-wins: after
`displayMessage m t` then `displayMessage m2 t` the sink holds `m2`, and
any nonempty sequence of writes leaves the sink holding the last message
written. -/
theorem c6_last_write_wins (m m2 t c : String) (env : Env)
    (h : env.dom t = some c) :
    ((displayMessage m2 t ((displayMessage m t env).1)).1).dom t = some m2 ∧
    (∀ ms : List String, ms ≠ [] → (writeSeq t ms env).dom t = ms.getLast?) :=
  ⟨sink_write m2 (sink_write m h),
   fun ms hne => writeSeq_last t ms env c h hne⟩

theorem c6_witness :
    envA.dom "message" = some "" ∧
    ((displayMessage "b" "message" ((displayMessage "a" "message" envA).1)).1).dom "message"
      = some "b" ∧
    (writeSeq "message" ["a", "b", "c"] envA).dom "message" = some "c" := by
  have h := c6_last_write_wins "a" "b" "message" "" envA (by decide)
  refine ⟨by decide, h.1, ?_⟩
  rw [h.2 ["a", "b", "c"] (by simp)]
  rfl

/-- C7: whatever an existing sink `message` held before — empty or any
previous text — after `init` its text equals exactly `Hello World`. -/
theorem c7_init_overwrites (c : String) (env : Env)
    (h : env.dom "message" = some c) :
    ((init env).1).dom "message" = some "Hello World" :=
  sink_write "Hello World" h

theorem c7_witness :
    envC.dom "message" = some "Old Text" ∧
    ((init envC).1).dom "message" = some "Hello World" ∧
    envA.dom "message" = some "" ∧
    ((init envA).1).dom "message" = some "Hello World" :=
  ⟨by decide, c7_init_overwrites "Old Text" envC (by decide),
   by decide, c7_init_overwrites "" envA (by decide)⟩

/-- C8: the lifecycle is the two-state machine idle → done: a trace
without the content-loaded signal executes nothing and stays idle; a trace
in which the signal fires exactly once runs `init` exactly once and ends
done; and no extension of a done trace returns to idle. -/
theorem c8_lifecycle (env : Env) (trace1 pre post ext : List String)
    (h0 : "DOMContentLoaded" ∉ trace1)
    (hpre : "DOMContentLoaded" ∉ pre)
    (hpost : "DOMContentLoaded" ∉ post) :
    (runTrace env trace1 = env ∧ phase trace1 = Phase.idle) ∧
    (runTrace env (pre ++ ["DOMContentLoaded"] ++ post) = (init env).1 ∧
     phase (pre ++ ["DOMContentLoaded"] ++ post) = Phase.done) ∧
    phase ((pre ++ ["DOMContentLoaded"] ++ post) ++ ext) = Phase.done := by
  have hsig : runTrace env (pre ++ ["DOMContentLoaded"] ++ post) = (init env).1 := by
    rw [runTrace_append, runTrace_append, runTrace_no_signal pre env hpre]
    show runTrace (fire env "DOMContentLoaded") post = (init env).1
    rw [fire_eq, if_pos rfl]
    exact runTrace_no_signal post _ hpost
  refine ⟨⟨runTrace_no_signal trace1 env h0, ?_⟩, ⟨hsig, ?_⟩, ?_⟩
  · simp [phase, h0]
  · simp [phase]
  · simp [phase]

theorem c8_witness :
    ("DOMContentLoaded" ∉ (["click"] : List String)) ∧
    runTrace envA ["click"] = envA ∧
    phase ["click"] = Phase.idle ∧
    runTrace envA (["click"] ++ ["DOMContentLoaded"] ++ ["scroll"]) = (init envA).1 ∧
    phase (["click"] ++ ["DOMContentLoaded"] ++ ["scroll"]) = Phase.done ∧
    phase ((["click"] ++ ["DOMContentLoaded"] ++ ["scroll"]) ++ ["resize"]) = Phase.done := by
  have h := c8_lifecycle envA ["click"] ["click"] ["scroll"] ["resize"]
    (by decide) (by decide) (by decide)
  exact ⟨by decide, h.1.1, h.1.2, h.2.1.1, h.2.1.2, h.2.2⟩

/-- C9: the success postcondition holds for the empty message too:
`displayMessage "" t` on an existing sink clears it to the empty string;
the code imposes no non-emptiness constraint on the message. -/
theorem c9_empty_message (t c : String) (env : Env)
    (h : env.dom t = some c) :
    ((displayMessage "" t env).1).dom t = some "" :=
  sink_write "" h

theorem c9_witness :
    envC.dom "message" = some "Old Text" ∧
    ((displayMessage "" "message" envC).1).dom "message" = some "" :=
  ⟨by decide, c9_empty_message "message" "Old Text" envC (by decide)⟩

/-- C10: on the success path `displayMessage m t` mutates only the sink
`t`: every other identifier's content is unchanged. -/
theorem c10_success_frame (m t c t2 : String) (env : Env)
    (h : env.dom t = some c) (hne : t2 ≠ t) :
    ((displayMessage m t env).1).dom t2 = env.dom t2 := by
  rw [displayMessage_some m h]
  simp [hne]

theorem c10_witness :
    envTwo.dom "message" = some "" ∧
    ("other" ≠ "message") ∧
    ((displayMessage "Hi" "message" envTwo).1).dom "other" = envTwo.dom "other" :=
  ⟨by decide, by decide,
   c10_success_frame "Hi" "message" "" "other" envTwo (by decide) (by decide)⟩
